import Mathlib

/-!
Shallow embedding of the two scripts of this repository:
`games_to_discord.py` (variant A) and `games_to_discord_screenshot.py`
(variant B).  Pure data flow is translated into total Lean functions;
the effects at the boundaries (file system, interactive prompts, HTTP)
become explicit parameters describing the outcome of each effect.
-/

/-- A JSON value as read and written by json.load / json.dump for the
config file.  Objects keep the insertion order of their keys, as Python
dicts do.  (No configuration this repository reads or writes contains a
float, so numbers are integers here.) -/
inductive Json where
  | null : Json
  | bool : Bool → Json
  | num : Int → Json
  | str : String → Json
  | arr : List Json → Json
  | obj : List (String × Json) → Json

/-- Python dict assignment config[k] = v on an insertion-ordered
association list: update the binding of k in place if it exists,
otherwise append a new binding at the end. -/
def setAssoc : List (String × Json) → String → Json → List (String × Json)
  | [], k, v => [(k, v)]
  | (k0, v0) :: rest, k, v =>
    if k0 = k then (k, v) :: rest else (k0, v0) :: setAssoc rest k v

/-- A valid configuration per the spec data model: a JSON object whose
two string keys are rawg_api_key and discord_webhook_url (in either
order). -/
def isValidConfig : Json → Bool
  | Json.obj [("rawg_api_key", Json.str _), ("discord_webhook_url", Json.str _)] => true
  | Json.obj [("discord_webhook_url", Json.str _), ("rawg_api_key", Json.str _)] => true
  | _ => false

/-- Observable result of one call to load_config: the value returned,
whether the interactive prompts ran, what was written to the config file
(none = no write), and whether the corruption message was printed.
The function is total: on every modelled input it returns normally. -/
structure LoadResult where
  returned : Json
  prompted : Bool
  wrote : Option Json
  reportedCorruption : Bool

/-- load_config, common to both variants up to the literal default
strings.  `fileExists` is os.path.exists(CONFIG_FILE); `parsed` is the
outcome of json.load on the file (some j = parsed JSON value, none =
json.JSONDecodeError, which the source catches).  `promptKey` and
`promptUrl` are the two input() results.  The interactive path builds
the default dict, overwrites both keys with the prompted values, writes
the dict to the file and returns it. -/
def load_config_gen (defaultKey defaultUrl : String)
    (fileExists : Bool) (parsed : Option Json)
    (promptKey promptUrl : String) : LoadResult :=
  let interactive : Bool → LoadResult := fun corrupt =>
    let config0 : List (String × Json) :=
      [("rawg_api_key", Json.str defaultKey),
       ("discord_webhook_url", Json.str defaultUrl)]
    let config1 := setAssoc config0 "rawg_api_key" (Json.str promptKey)
    let config2 := setAssoc config1 "discord_webhook_url" (Json.str promptUrl)
    { returned := Json.obj config2, prompted := true,
      wrote := some (Json.obj config2), reportedCorruption := corrupt }
  match fileExists, parsed with
  | true, some j =>
    { returned := j, prompted := false, wrote := none, reportedCorruption := false }
  | true, none => interactive true
  | false, _ => interactive false

/-- The object inside a platforms list element under the key platform. -/
structure PlatformInfo where
  name : Option String
  deriving DecidableEq

/-- One element of a platforms list.  `platform = none` models the
element having no truthy platform value (key absent, null, or the empty
object): p.get("platform") is then falsy and the element is filtered
out by the comprehension. -/
structure PlatformEntry where
  platform : Option PlatformInfo
  deriving DecidableEq

/-- A game record as consumed by the formatters, per the spec data
model.  Each field is none when the key is absent (or, for platforms,
null — both make game.get("platforms") or [] yield the empty list). -/
structure GameRecord where
  id : Option Int
  name : Option String
  released : Option String
  platforms : Option (List PlatformEntry)
  deriving DecidableEq

/-- The comma-joined platform names of a record, exactly as both
variants compute it from platforms_list. -/
def platformsJoined (g : GameRecord) : String :=
  String.intercalate ", "
    (((g.platforms.getD []).filterMap (fun p => p.platform)).map
      (fun pi => pi.name.getD ""))

/-- One entry of an embed fields list.  `inlined` models the optional
inline key: variant A omits it, variant B sets it to true. -/
structure EmbedField where
  name : String
  value : String
  inlined : Option Bool
  deriving DecidableEq

structure EmbedFooter where
  text : String
  deriving DecidableEq

structure EmbedImage where
  url : String
  deriving DecidableEq

/-- A Discord embed block as both scripts build it; an optional key that
a script never sets is none. -/
structure Embed where
  title : String
  color : Option Nat
  description : Option String
  fields : List EmbedField
  image : Option EmbedImage
  footer : Option EmbedFooter
  deriving DecidableEq

/-- The payload handed to send_to_discord: either the plain-text
fallback or a list of embeds. -/
inductive DiscordPayload where
  | content : String → DiscordPayload
  | embeds : List Embed → DiscordPayload
  deriving DecidableEq

/-- Outcome of the requests.get call in fetch_upcoming_games.
transportFailure covers every requests.exceptions.RequestException
raised by the call itself.  For a response, `results?` is the value of
the results member of the decoded JSON body (none = key absent), with
the body assumed to follow the data model of the catalog API. -/
inductive FetchOutcome where
  | transportFailure : FetchOutcome
  | httpResponse : Nat → Option (List GameRecord) → FetchOutcome

/-- fetch_upcoming_games, identical in both variants.  response.
raise_for_status raises HTTPError exactly for statuses 400..599; that
exception and every transport failure is caught by the except clause,
which logs and returns the empty list.  Otherwise the function returns
data.get("results", []). -/
def fetch_upcoming_games (apiKey : String) (count : Nat)
    (outcome : FetchOutcome) : List GameRecord :=
  match apiKey, count, outcome with
  | _, _, FetchOutcome.transportFailure => []
  | _, _, FetchOutcome.httpResponse status results? =>
    if 400 ≤ status ∧ status < 600 then [] else results?.getD []

/-- Outcome of one requests.post call in send_to_discord. -/
inductive PostOutcome where
  | transportFailure : PostOutcome
  | response : Nat → PostOutcome
  deriving DecidableEq

/-- send_to_discord, identical in both variants, modelled against a
queue of prepared network outcomes, one consumed per HTTP POST the
function performs; the second component is the unconsumed remainder of
the queue.  The source performs exactly one requests.post and catches
RequestException (raised by the call itself, or by raise_for_status for
statuses 400..599), returning False; on a surviving response it returns
True.  The empty-queue case is unreachable: an attempted POST always
yields an outcome. -/
def send_to_discord (webhookUrl : String) (payload : DiscordPayload) :
    List PostOutcome → Bool × List PostOutcome
  | [] => (false, [])
  | o :: rest =>
    match webhookUrl, payload, o with
    | _, _, PostOutcome.transportFailure => (false, rest)
    | _, _, PostOutcome.response status =>
      (if 400 ≤ status ∧ status < 600 then false else true, rest)

/-- What main does right after fetch_upcoming_games returns:
on an empty list it prints a message and returns normally (exit code 0),
otherwise it goes on to format and publish. -/
inductive RunStep where
  | reportNothing : RunStep
  | proceed : DiscordPayload → RunStep
  deriving DecidableEq

namespace GamesToDiscord

/-- load_config of games_to_discord.py: load_config_gen at the literal
default strings hardcoded in the source. -/
def load_config (fileExists : Bool) (parsed : Option Json)
    (promptKey promptUrl : String) : LoadResult :=
  load_config_gen "d430c2ba8e9146d7af53c78d27ba9a57"
    "https://discord.com/api/webhooks/1326943556698640455/CrfsqFW9DohoFB-Fu-z3Dl17uOHnnMN0XJ1xdt4klALd9JcNsEQ4OSNoXxpYkBXvq84Z"
    fileExists parsed promptKey promptUrl

/-- The field variant A builds for one game.  The source file literally
contains the mojibake characters reproduced below (its emoji were
mis-decoded once before commit); they are kept byte-for-byte. -/
def gameField (g : GameRecord) : EmbedField :=
  let name := g.name.getD "Unknown Title"
  let release_date := g.released.getD "TBA"
  let platforms := platformsJoined g
  { name := "**" ++ name ++ "**",
    value := "ðŸ“… Release Date: **" ++ release_date ++ "**\n" ++
      (if platforms ≠ "" then "ðŸŽ® Platforms: " ++ platforms else ""),
    inlined := none }

/-- format_discord_message of games_to_discord.py.  `now` is the
strftime rendering of datetime.datetime.now(), made an explicit
parameter. -/
def format_discord_message (games : List GameRecord) (now : String) :
    DiscordPayload :=
  match games with
  | [] => DiscordPayload.content "No upcoming games found!"
  | _ =>
    DiscordPayload.embeds
      [{ title := "ðŸŽ® Upcoming Game Releases ðŸŽ®",
         color := some 0x7289DA,
         description := some "Here are the upcoming game releases:",
         fields := games.map gameField,
         image := none,
         footer := some { text := "Data from RAWG.io â€¢ Generated on " ++ now } }]

/-- The branch of main on the fetch result: if not games, print and
return; otherwise format (and then publish). -/
def main_dispatch (games : List GameRecord) (now : String) : RunStep :=
  match games with
  | [] => RunStep.reportNothing
  | _ => RunStep.proceed (format_discord_message games now)

end GamesToDiscord

namespace GamesToDiscordScreenshot

/-- load_config of games_to_discord_screenshot.py: load_config_gen at
its literal defaults, both empty strings. -/
def load_config (fileExists : Bool) (parsed : Option Json)
    (promptKey promptUrl : String) : LoadResult :=
  load_config_gen "" "" fileExists parsed promptKey promptUrl

/-- The header embed of variant B, with the generation-timestamp footer
that the source assigns to embeds[0] after the loop. -/
def mainEmbed (now : String) : Embed :=
  { title := "🎮 Upcoming Game Releases 🎮",
    color := some 0x7289DA,
    description := some "Here are the upcoming game releases with screenshots:",
    fields := [],
    image := none,
    footer := some { text := "Data from RAWG.io • Generated on " ++ now } }

/-- The embed variant B builds for one game.  `screenshots` is the dict
mapping game ids to screenshot URLs; the source attaches the image when
game_id is a key of the dict and its value is truthy (a nonempty
string), and otherwise sets the no-screenshot footer. -/
def gameEmbed (screenshots : Int → Option String) (g : GameRecord) : Embed :=
  let name := g.name.getD "Unknown Title"
  let release_date := g.released.getD "TBA"
  let platforms := platformsJoined g
  let fields0 : List EmbedField :=
    [{ name := "Release Date",
       value := "📅 **" ++ release_date ++ "**",
       inlined := some true }]
  let fields1 :=
    if platforms ≠ "" then
      fields0 ++
        [{ name := "Platforms", value := "🎮 " ++ platforms, inlined := some true }]
    else fields0
  match g.id.bind screenshots with
  | some url =>
    if url ≠ "" then
      { title := name, color := some 0x3498DB, description := none,
        fields := fields1, image := some { url := url }, footer := none }
    else
      { title := name, color := some 0x3498DB, description := none,
        fields := fields1, image := none,
        footer := some { text := "No screenshot available for this game" } }
  | none =>
    { title := name, color := some 0x3498DB, description := none,
      fields := fields1, image := none,
      footer := some { text := "No screenshot available for this game" } }

/-- format_discord_message of games_to_discord_screenshot.py: the
header embed followed by one embed per game, for the first 9 games
only (games[:9]). -/
def format_discord_message (games : List GameRecord)
    (screenshots : Int → Option String) (now : String) : DiscordPayload :=
  match games with
  | [] => DiscordPayload.content "No upcoming games found!"
  | _ =>
    DiscordPayload.embeds
      (mainEmbed now :: (games.take 9).map (gameEmbed screenshots))

/-- The branch of main on the fetch result, as in variant A but
formatting with the screenshots dict gathered in between. -/
def main_dispatch (games : List GameRecord)
    (screenshots : Int → Option String) (now : String) : RunStep :=
  match games with
  | [] => RunStep.reportNothing
  | _ => RunStep.proceed (format_discord_message games screenshots now)

end GamesToDiscordScreenshot

/-- The release date string both variants compute for a record:
game.get("released", "TBA"). -/
def releaseDateOf (g : GameRecord) : String :=
  g.released.getD "TBA"

/-- The first mock record of the end-to-end scenario in the spec. -/
def fooRecord : GameRecord :=
  { id := some 1, name := some "Foo", released := some "2025-03-01",
    platforms := some [{ platform := some { name := some "PC" } }] }

/-- The second mock record of the end-to-end scenario in the spec:
platforms is null. -/
def barRecord : GameRecord :=
  { id := some 2, name := some "Bar", released := some "TBA",
    platforms := none }

/-- A record with every key absent, used to instantiate theorems. -/
def nullRecord : GameRecord :=
  { id := none, name := none, released := none, platforms := none }

/-- A record with an id but no release date or platforms, used to
instantiate theorems. -/
def shotRecord : GameRecord :=
  { id := some 7, name := some "G", released := none, platforms := none }

/-- A record with null platforms, used to instantiate theorems. -/
def bazRecord : GameRecord :=
  { id := some 3, name := some "Baz", released := some "2025-05-05",
    platforms := none }

/-- A screenshot mapping holding a nonempty URL for every id, used to
instantiate theorems. -/
def shotMap : Int → Option String :=
  fun _ => some "https://img.example/shot.png"

/-- The empty screenshot mapping, used to instantiate theorems. -/
def noShots : Int → Option String :=
  fun _ => none

/-- Claim C4: for the empty list of game records, format_discord_message
(in both variants, and for any screenshot mapping in variant B) returns
exactly the plain-text payload with content "No upcoming games found!"
and no embeds. -/
theorem empty_games_plain_fallback (now : String)
    (screenshots : Int → Option String) :
    GamesToDiscord.format_discord_message [] now =
      DiscordPayload.content "No upcoming games found!" ∧
    GamesToDiscordScreenshot.format_discord_message [] screenshots now =
      DiscordPayload.content "No upcoming games found!" :=
  ⟨rfl, rfl⟩

/-- Claim C3: on exactly the two mock records fooRecord and barRecord,
variant A returns one embed with exactly two fields: one named "**Foo**"
showing release date 2025-03-01 and platform PC, and one named "**Bar**"
showing release date TBA with no platform line. -/
theorem variantA_two_mock_records (now : String) :
    ∃ e : Embed,
      GamesToDiscord.format_discord_message [fooRecord, barRecord] now =
        DiscordPayload.embeds [e] ∧
      e.fields.length = 2 ∧
      e.fields[0]? = some
        { name := "**Foo**",
          value := "ðŸ“… Release Date: **2025-03-01**\nðŸŽ® Platforms: PC",
          inlined := none } ∧
      e.fields[1]? = some
        { name := "**Bar**",
          value := "ðŸ“… Release Date: **TBA**\n",
          inlined := none } := by
  refine ⟨_, rfl, ?_, ?_, ?_⟩ <;> rfl

/-- Claim C2, counterexample: the file content [] parses as JSON but is
not a valid configuration, and load_config (in either variant) returns
it as-is: it neither reports corruption nor falls through to the
interactive prompts, contradicting the claim for this malformed
configuration. -/
theorem config_validJson_nonconfig_no_reprompt :
    isValidConfig (Json.arr []) = false ∧
    (GamesToDiscord.load_config true (some (Json.arr [])) "key-in" "url-in").prompted
      = false ∧
    (GamesToDiscord.load_config true (some (Json.arr [])) "key-in" "url-in").reportedCorruption
      = false ∧
    (GamesToDiscordScreenshot.load_config true (some (Json.arr [])) "key-in" "url-in").prompted
      = false :=
  ⟨rfl, rfl, rfl, rfl⟩

/-- Claim C2, amended: for every config file that exists but whose
content fails to parse as JSON (json.load raises JSONDecodeError),
load_config in both variants does not raise: it reports the corruption
error and falls through to interactive prompting for both fields,
returning exactly the prompted values.  (Content that parses as JSON is
returned as-is without prompting, even when it is not a valid
configuration.) -/
theorem corrupt_config_reprompts (promptKey promptUrl : String) :
    (GamesToDiscord.load_config true none promptKey promptUrl).prompted = true ∧
    (GamesToDiscord.load_config true none promptKey promptUrl).reportedCorruption = true ∧
    (GamesToDiscord.load_config true none promptKey promptUrl).returned =
      Json.obj [("rawg_api_key", Json.str promptKey),
        ("discord_webhook_url", Json.str promptUrl)] ∧
    (GamesToDiscordScreenshot.load_config true none promptKey promptUrl).prompted = true ∧
    (GamesToDiscordScreenshot.load_config true none promptKey promptUrl).reportedCorruption = true ∧
    (GamesToDiscordScreenshot.load_config true none promptKey promptUrl).returned =
      Json.obj [("rawg_api_key", Json.str promptKey),
        ("discord_webhook_url", Json.str promptUrl)] := by
  refine ⟨rfl, rfl, ?_, rfl, rfl, ?_⟩ <;> rfl

/-- Claim C10: whenever load_config takes the interactive-creation path
(config file absent, or present but unparseable), the configuration it
returns and persists consists exactly of the two prompted strings; the
literal default values hardcoded in the function never influence the
returned or persisted configuration.  Quantifying over two arbitrary
pairs of defaults covers the hardcoded literals of both variants,
including variant A's embedded API key and webhook URL. -/
theorem interactive_config_ignores_defaults
    (dk du dk2 du2 promptKey promptUrl : String)
    (fileExists : Bool) (parsed : Option Json)
    (h : fileExists = false ∨ parsed = none) :
    load_config_gen dk du fileExists parsed promptKey promptUrl =
      load_config_gen dk2 du2 fileExists parsed promptKey promptUrl ∧
    (load_config_gen dk du fileExists parsed promptKey promptUrl).prompted = true ∧
    (load_config_gen dk du fileExists parsed promptKey promptUrl).returned =
      Json.obj [("rawg_api_key", Json.str promptKey),
        ("discord_webhook_url", Json.str promptUrl)] ∧
    (load_config_gen dk du fileExists parsed promptKey promptUrl).wrote =
      some (Json.obj [("rawg_api_key", Json.str promptKey),
        ("discord_webhook_url", Json.str promptUrl)]) := by
  rcases h with h | h
  · subst h; cases parsed <;> exact ⟨rfl, rfl, rfl, rfl⟩
  · subst h; cases fileExists <;> exact ⟨rfl, rfl, rfl, rfl⟩

/-- Witness for interactive_config_ignores_defaults, at the hardcoded
defaults of variant A against those of variant B, with the config file
absent. -/
theorem interactive_config_ignores_defaults_witness :
    ((false : Bool) = false ∨ (some Json.null : Option Json) = none) ∧
    (load_config_gen "d430c2ba8e9146d7af53c78d27ba9a57"
        "https://discord.com/api/webhooks/1326943556698640455/CrfsqFW9DohoFB-Fu-z3Dl17uOHnnMN0XJ1xdt4klALd9JcNsEQ4OSNoXxpYkBXvq84Z"
        false (some Json.null) "my-key" "my-url" =
      load_config_gen "" "" false (some Json.null) "my-key" "my-url" ∧
    (load_config_gen "d430c2ba8e9146d7af53c78d27ba9a57"
        "https://discord.com/api/webhooks/1326943556698640455/CrfsqFW9DohoFB-Fu-z3Dl17uOHnnMN0XJ1xdt4klALd9JcNsEQ4OSNoXxpYkBXvq84Z"
        false (some Json.null) "my-key" "my-url").prompted = true ∧
    (load_config_gen "d430c2ba8e9146d7af53c78d27ba9a57"
        "https://discord.com/api/webhooks/1326943556698640455/CrfsqFW9DohoFB-Fu-z3Dl17uOHnnMN0XJ1xdt4klALd9JcNsEQ4OSNoXxpYkBXvq84Z"
        false (some Json.null) "my-key" "my-url").returned =
      Json.obj [("rawg_api_key", Json.str "my-key"),
        ("discord_webhook_url", Json.str "my-url")] ∧
    (load_config_gen "d430c2ba8e9146d7af53c78d27ba9a57"
        "https://discord.com/api/webhooks/1326943556698640455/CrfsqFW9DohoFB-Fu-z3Dl17uOHnnMN0XJ1xdt4klALd9JcNsEQ4OSNoXxpYkBXvq84Z"
        false (some Json.null) "my-key" "my-url").wrote =
      some (Json.obj [("rawg_api_key", Json.str "my-key"),
        ("discord_webhook_url", Json.str "my-url")])) :=
  ⟨Or.inl rfl,
    interactive_config_ignores_defaults
      "d430c2ba8e9146d7af53c78d27ba9a57"
      "https://discord.com/api/webhooks/1326943556698640455/CrfsqFW9DohoFB-Fu-z3Dl17uOHnnMN0XJ1xdt4klALd9JcNsEQ4OSNoXxpYkBXvq84Z"
      "" "" "my-key" "my-url" false (some Json.null) (Or.inl rfl)⟩

/-- Claim C7: on every transport failure, and on every HTTP-status
failure (status 400..599, whatever the response body), fetch_upcoming_
games returns normally with the empty list, and main treats that empty
list as nothing to report (it prints a message and returns normally)
rather than as an error. -/
theorem fetch_failure_returns_empty (apiKey : String) (count : Nat)
    (status : Nat) (results? : Option (List GameRecord)) (now : String)
    (screenshots : Int → Option String)
    (h : 400 ≤ status ∧ status < 600) :
    fetch_upcoming_games apiKey count FetchOutcome.transportFailure = [] ∧
    fetch_upcoming_games apiKey count (FetchOutcome.httpResponse status results?) = [] ∧
    GamesToDiscord.main_dispatch
      (fetch_upcoming_games apiKey count (FetchOutcome.httpResponse status results?)) now
      = RunStep.reportNothing ∧
    GamesToDiscordScreenshot.main_dispatch
      (fetch_upcoming_games apiKey count FetchOutcome.transportFailure) screenshots now
      = RunStep.reportNothing := by
  have h2 : fetch_upcoming_games apiKey count
      (FetchOutcome.httpResponse status results?) = [] := by
    simp only [fetch_upcoming_games]
    rw [if_pos h]
  refine ⟨rfl, h2, ?_, rfl⟩
  rw [h2]
  rfl

/-- Witness for fetch_failure_returns_empty at status 500 with a
nonempty body. -/
theorem fetch_failure_returns_empty_witness :
    ((400 ≤ 500 ∧ 500 < 600) : Prop) ∧
    (fetch_upcoming_games "k" 20 FetchOutcome.transportFailure = [] ∧
    fetch_upcoming_games "k" 20
      (FetchOutcome.httpResponse 500 (some [fooRecord])) = [] ∧
    GamesToDiscord.main_dispatch
      (fetch_upcoming_games "k" 20 (FetchOutcome.httpResponse 500 (some [fooRecord])))
      "2025-01-01 00:00:00" = RunStep.reportNothing ∧
    GamesToDiscordScreenshot.main_dispatch
      (fetch_upcoming_games "k" 20 FetchOutcome.transportFailure)
      (fun _ => none) "2025-01-01 00:00:00" = RunStep.reportNothing) :=
  ⟨by decide,
    fetch_failure_returns_empty "k" 20 500 (some [fooRecord])
      "2025-01-01 00:00:00" (fun _ => none) (by decide)⟩

/-- Claim C8, counterexample: status 300 is not a 2xx status, yet
send_to_discord returns true on it, because response.raise_for_status
only raises for statuses 400..599.  This contradicts the claim that a
non-2xx status always yields false. -/
theorem publisher_true_on_status_300 :
    (¬ (200 ≤ 300 ∧ 300 < 300)) ∧
    (send_to_discord "https://example.invalid/webhook"
      (DiscordPayload.content "hello") [PostOutcome.response 300]).1 = true :=
  ⟨by decide, rfl⟩

/-- Claim C8, amended: for every webhook URL and payload,
send_to_discord consumes exactly one network outcome (it issues a
single POST and never retries) and returns normally; it returns false
exactly when the transport fails or the response status is in 400..599
(the statuses for which raise_for_status raises), and true otherwise —
so a 2xx succeeds, and statuses outside 200..299 and 400..599, such as
300, also yield true. -/
theorem publisher_single_post_outcome (webhookUrl : String)
    (payload : DiscordPayload) (o : PostOutcome) (rest : List PostOutcome) :
    (send_to_discord webhookUrl payload (o :: rest)).2 = rest ∧
    ((send_to_discord webhookUrl payload (o :: rest)).1 = false ↔
      o = PostOutcome.transportFailure ∨
        ∃ status, o = PostOutcome.response status ∧ 400 ≤ status ∧ status < 600) := by
  cases o with
  | transportFailure =>
    exact ⟨rfl, by simp [send_to_discord]⟩
  | response status =>
    refine ⟨rfl, ?_⟩
    by_cases h : 400 ≤ status ∧ status < 600
    · simp [send_to_discord, h]
    · simp [send_to_discord, h]

/-- Claim C5: for every non-empty list of N game records, variant A
returns exactly 1 embed whose fields list has exactly N entries, one
per record in input order; and the release date a field shows is TBA
whenever the record has no released key. -/
theorem variantA_one_embed_per_record (games : List GameRecord)
    (now : String) (h : games ≠ []) :
    ∃ e : Embed,
      GamesToDiscord.format_discord_message games now = DiscordPayload.embeds [e] ∧
      e.fields = games.map GamesToDiscord.gameField ∧
      e.fields.length = games.length ∧
      (∀ i : Nat, e.fields[i]? = (games[i]?).map GamesToDiscord.gameField) ∧
      (∀ g ∈ games, g.released = none →
        releaseDateOf g = "TBA" ∧
        (GamesToDiscord.gameField g).value =
          "ðŸ“… Release Date: **" ++ releaseDateOf g ++ "**\n" ++
            (if platformsJoined g ≠ "" then "ðŸŽ® Platforms: " ++ platformsJoined g
             else "")) := by
  cases games with
  | nil => exact absurd rfl h
  | cons g0 gs =>
    refine ⟨_, rfl, rfl, ?_, ?_, ?_⟩
    · simp
    · intro i
      exact List.getElem?_map GamesToDiscord.gameField (g0 :: gs) i
    · intro g _ hrel
      exact ⟨by simp [releaseDateOf, hrel], rfl⟩

/-- Witness for variantA_one_embed_per_record on the one-record list
[nullRecord], whose released key is absent. -/
theorem variantA_one_embed_per_record_witness :
    (([nullRecord] : List GameRecord) ≠ []) ∧
    (∃ e : Embed,
      GamesToDiscord.format_discord_message [nullRecord] "2025-01-01 00:00:00" =
        DiscordPayload.embeds [e] ∧
      e.fields = [nullRecord].map GamesToDiscord.gameField ∧
      e.fields.length = ([nullRecord] : List GameRecord).length ∧
      (∀ i : Nat, e.fields[i]? = ([nullRecord][i]?).map GamesToDiscord.gameField) ∧
      (∀ g ∈ ([nullRecord] : List GameRecord), g.released = none →
        releaseDateOf g = "TBA" ∧
        (GamesToDiscord.gameField g).value =
          "ðŸ“… Release Date: **" ++ releaseDateOf g ++ "**\n" ++
            (if platformsJoined g ≠ "" then "ðŸŽ® Platforms: " ++ platformsJoined g
             else ""))) :=
  ⟨by decide,
    variantA_one_embed_per_record [nullRecord] "2025-01-01 00:00:00" (by decide)⟩

/-- Claim C1: for every list of 10 or more records and any screenshot
mapping, variant B returns an embeds payload with exactly 10 elements:
the header embed first, then one embed per record for the first 9
records in order; the embeds list is fully determined by the first 9
records, so records from the 10th onward do not appear. -/
theorem variantB_caps_embeds_at_ten (games : List GameRecord)
    (screenshots : Int → Option String) (now : String)
    (h : 10 ≤ games.length) :
    ∃ es : List Embed,
      GamesToDiscordScreenshot.format_discord_message games screenshots now =
        DiscordPayload.embeds es ∧
      es = GamesToDiscordScreenshot.mainEmbed now ::
        (games.take 9).map (GamesToDiscordScreenshot.gameEmbed screenshots) ∧
      es.length = 10 ∧
      es[0]? = some (GamesToDiscordScreenshot.mainEmbed now) ∧
      (∀ i : Nat, i < 9 →
        es[i + 1]? = (games[i]?).map (GamesToDiscordScreenshot.gameEmbed screenshots)) := by
  cases games with
  | nil => simp at h
  | cons g0 gs =>
    refine ⟨_, rfl, rfl, ?_, rfl, ?_⟩
    · have hlen : (List.take 9 (g0 :: gs)).length = 9 := by
        rw [List.length_take]
        simp only [List.length_cons] at h ⊢
        omega
      rw [List.length_cons, List.length_map, hlen]
    · intro i hi
      rw [List.getElem?_cons_succ, List.getElem?_map,
        List.getElem?_take_of_lt hi]

/-- Witness for variantB_caps_embeds_at_ten on ten copies of
nullRecord and the empty screenshot mapping. -/
theorem variantB_caps_embeds_at_ten_witness :
    (10 ≤ (List.replicate 10 nullRecord).length) ∧
    (∃ es : List Embed,
      GamesToDiscordScreenshot.format_discord_message
        (List.replicate 10 nullRecord) (fun _ => none) "2025-01-01 00:00:00" =
        DiscordPayload.embeds es ∧
      es = GamesToDiscordScreenshot.mainEmbed "2025-01-01 00:00:00" ::
        ((List.replicate 10 nullRecord).take 9).map
          (GamesToDiscordScreenshot.gameEmbed (fun _ => none)) ∧
      es.length = 10 ∧
      es[0]? = some (GamesToDiscordScreenshot.mainEmbed "2025-01-01 00:00:00") ∧
      (∀ i : Nat, i < 9 →
        es[i + 1]? = ((List.replicate 10 nullRecord)[i]?).map
          (GamesToDiscordScreenshot.gameEmbed (fun _ => none)))) :=
  ⟨by decide,
    variantB_caps_embeds_at_ten (List.replicate 10 nullRecord)
      (fun _ => none) "2025-01-01 00:00:00" (by decide)⟩

/-- Claim C9: for every record among the first 9 of a non-empty input
list, variant B places the embed built for that record at the matching
position after the header, and that embed carries an image block with
the mapped URL exactly when the screenshot mapping yields a URL for the
record's id; otherwise it carries the footer saying no screenshot is
available.  The hypothesis on `screenshots` mirrors main(), which only
stores truthy screenshot URLs in the dict. -/
theorem screenshot_image_or_footer (games : List GameRecord)
    (screenshots : Int → Option String) (now : String)
    (hss : ∀ i u, screenshots i = some u → u ≠ "")
    (i : Nat) (hi : i < 9) (hlen : i < games.length) :
    ∃ es : List Embed,
      GamesToDiscordScreenshot.format_discord_message games screenshots now =
        DiscordPayload.embeds es ∧
      es[i + 1]? = (games[i]?).map (GamesToDiscordScreenshot.gameEmbed screenshots) ∧
      (∀ g, games[i]? = some g →
        (∀ url, g.id.bind screenshots = some url →
          (GamesToDiscordScreenshot.gameEmbed screenshots g).image = some { url := url } ∧
          (GamesToDiscordScreenshot.gameEmbed screenshots g).footer = none) ∧
        (g.id.bind screenshots = none →
          (GamesToDiscordScreenshot.gameEmbed screenshots g).image = none ∧
          (GamesToDiscordScreenshot.gameEmbed screenshots g).footer =
            some { text := "No screenshot available for this game" })) := by
  cases games with
  | nil => simp at hlen
  | cons g0 gs =>
    refine ⟨_, rfl, ?_, ?_⟩
    · rw [List.getElem?_cons_succ, List.getElem?_map,
        List.getElem?_take_of_lt hi]
    · intro g _
      constructor
      · intro url hurl
        obtain ⟨gid, _, hs⟩ := Option.bind_eq_some.mp hurl
        have hne : url ≠ "" := hss gid url hs
        simp only [GamesToDiscordScreenshot.gameEmbed, hurl]
        rw [if_pos hne]
        exact ⟨rfl, rfl⟩
      · intro hnone
        simp [GamesToDiscordScreenshot.gameEmbed, hnone]

/-- The screenshot mapping shotMap only yields nonempty URLs. -/
theorem shotMap_nonempty : ∀ i u, shotMap i = some u → u ≠ "" := by
  intro i u hu
  simp only [shotMap, Option.some.injEq] at hu
  subst hu
  decide

/-- Witness for screenshot_image_or_footer: the single record
shotRecord (id 7) under the mapping shotMap, at index 0. -/
theorem screenshot_image_or_footer_witness :
    (∀ i u, shotMap i = some u → u ≠ "") ∧
    ((0 : Nat) < 9) ∧
    ((0 : Nat) < ([shotRecord] : List GameRecord).length) ∧
    (∃ es : List Embed,
      GamesToDiscordScreenshot.format_discord_message [shotRecord] shotMap
        "2025-01-01 00:00:00" = DiscordPayload.embeds es ∧
      es[0 + 1]? = (([shotRecord] : List GameRecord)[0]?).map
        (GamesToDiscordScreenshot.gameEmbed shotMap) ∧
      (∀ g, ([shotRecord] : List GameRecord)[0]? = some g →
        (∀ url, g.id.bind shotMap = some url →
          (GamesToDiscordScreenshot.gameEmbed shotMap g).image = some { url := url } ∧
          (GamesToDiscordScreenshot.gameEmbed shotMap g).footer = none) ∧
        (g.id.bind shotMap = none →
          (GamesToDiscordScreenshot.gameEmbed shotMap g).image = none ∧
          (GamesToDiscordScreenshot.gameEmbed shotMap g).footer =
            some { text := "No screenshot available for this game" }))) :=
  ⟨shotMap_nonempty, by decide, by decide,
    screenshot_image_or_footer [shotRecord] shotMap "2025-01-01 00:00:00"
      shotMap_nonempty 0 (by decide) (by decide)⟩

/-- Claim C6: for every record whose platforms key is absent or null,
neither variant raises (both per-record formatters are total functions
of the record, the null case being guarded in the source by the
fallback to the empty list), the joined platform string is empty, and
no platforms phrase or field is emitted: variant A's field value is
just the release-date line, and variant B's embed has the release-date
field only. -/
theorem null_platforms_no_field (g : GameRecord)
    (screenshots : Int → Option String) (now : String)
    (h : g.platforms = none) :
    platformsJoined g = "" ∧
    (GamesToDiscord.gameField g).value =
      "ðŸ“… Release Date: **" ++ releaseDateOf g ++ "**\n" ∧
    (GamesToDiscordScreenshot.gameEmbed screenshots g).fields =
      [{ name := "Release Date",
         value := "📅 **" ++ releaseDateOf g ++ "**",
         inlined := some true }] ∧
    (∃ e : Embed,
      GamesToDiscord.format_discord_message [g] now = DiscordPayload.embeds [e] ∧
      e.fields = [GamesToDiscord.gameField g]) := by
  have hj : platformsJoined g = "" := by
    unfold platformsJoined
    rw [h]
    rfl
  refine ⟨hj, ?_, ?_, ⟨_, rfl, rfl⟩⟩
  · simp [GamesToDiscord.gameField, releaseDateOf, hj]
  · cases hb : g.id.bind screenshots with
    | some url =>
      by_cases hu : url ≠ ""
      · simp [GamesToDiscordScreenshot.gameEmbed, releaseDateOf, hb, hu, hj]
      · simp [GamesToDiscordScreenshot.gameEmbed, releaseDateOf, hb, hu, hj]
    | none => simp [GamesToDiscordScreenshot.gameEmbed, releaseDateOf, hb, hj]

/-- Witness for null_platforms_no_field on bazRecord, whose platforms
value is null. -/
theorem null_platforms_no_field_witness :
    (bazRecord.platforms = none) ∧
    (platformsJoined bazRecord = "" ∧
    (GamesToDiscord.gameField bazRecord).value =
      "ðŸ“… Release Date: **" ++ releaseDateOf bazRecord ++ "**\n" ∧
    (GamesToDiscordScreenshot.gameEmbed noShots bazRecord).fields =
      [{ name := "Release Date",
         value := "📅 **" ++ releaseDateOf bazRecord ++ "**",
         inlined := some true }] ∧
    (∃ e : Embed,
      GamesToDiscord.format_discord_message [bazRecord] "2025-01-01 00:00:00" =
        DiscordPayload.embeds [e] ∧
      e.fields = [GamesToDiscord.gameField bazRecord])) :=
  ⟨rfl,
    null_platforms_no_field bazRecord noShots "2025-01-01 00:00:00" rfl⟩
